import Mathlib

/-
Verification of the starflyer micro web framework (form validation layer,
application dispatch / exception cascade, handler method dispatch).

Python dictionaries are modelled as association lists (List (String × α));
the construction sites in the source build them from unique keys.  Python
exceptions are modelled with Except; the distinguished `no_value` sentinel
of the form layer is modelled as Option.none at lookup sites.
-/

set_option autoImplicit false

namespace Starflyer

/-- lookup in an association list; models Python dict.get(k, default) with
the `none` result standing for the default. -/
def lookupAssoc {α : Type} : List (String × α) → String → Option α
  | [], _ => none
  | (k', v) :: rest, k => if k' = k then some v else lookupAssoc rest k

/-- remove a key from an association list; models del m[k] on a dict. -/
def eraseKey {α : Type} : List (String × α) → String → List (String × α)
  | [], _ => []
  | (k', v) :: rest, k =>
    if k' = k then eraseKey rest k else (k', v) :: eraseKey rest k

/-- the typed validation failure raised by processors: starflyer.processors.Error,
a (kind, message) pair.  The processors module itself is not part of the
source tree; the error shape follows its uses in form/core.py and form/widgets.py
(Error('required', message)) and the spec's description of a typed
(kind, message) validation failure. -/
structure PError where
  kind : String
  msg : String
deriving DecidableEq, Repr

/-- Modelled from the spec: starflyer.processors.process is absent from the
source tree.  Per the spec's processor-pipeline contract, it applies each
transform of the ordered chain to the value produced by the previous one,
aborts the remaining chain on the first typed validation failure, and on
success returns the final transformed value (the source accesses it as
the .data attribute of the returned context). -/
def process {α : Type} : α → List (α → Except PError α) → Except PError α
  | value, [] => .ok value
  | value, p :: rest =>
    match p value with
    | .ok v => process v rest
    | .error e => .error e

/-! ## Form layer: starflyer/form/core.py and starflyer/form/widgets.py -/

/-- values flowing through the dynamically typed widget pipeline:
strings from submitted form data, the no_value sentinel, or the Form
instance itself (which the base Widget.from_form ends up feeding to the
processors, see widgetFromForm below). -/
inductive PyVal where
  | str (s : String)
  | noValue
  | formObj
deriving DecidableEq, Repr

/-- Widget.from_form (form/core.py lines 132-144): read the raw value from the
submitted data with the no_value sentinel as default; raise
Error('required', message) only when the value is the sentinel and the widget
is required; otherwise call self.process_out(value, form).  In the source that
call passes the raw value and the form positionally into
process_out(self, form, value), so the processor chain receives the Form
object as the value being processed. -/
def widgetFromForm (required : Bool) (name msg : String)
    (formdata : List (String × String))
    (processors_out : List (PyVal → Except PError PyVal)) : Except PError PyVal :=
  let value : PyVal :=
    match lookupAssoc formdata name with
    | none => .noValue
    | some s => .str s
  if value = .noValue && required then
    .error ⟨"required", msg⟩
  else
    process .formObj processors_out

/-- the test v.strip() == "" on a Python string: true exactly when every
character is whitespace (stripping removes leading and trailing whitespace,
so the result is empty iff nothing else is present). -/
def stripIsEmpty (s : String) : Bool :=
  s.data.all Char.isWhitespace

/-- Input.from_form (form/widgets.py lines 11-17): read the raw value with the
no_value sentinel as default; raise Error('required', message) when the widget
is required and the value is the sentinel or strips to the empty string;
otherwise return the raw value (sentinel included) unchanged. -/
def inputFromForm (required : Bool) (name msg : String)
    (formdata : List (String × String)) : Except PError (Option String) :=
  let v := lookupAssoc formdata name
  if (v.isNone || stripIsEmpty (v.getD "")) && required then
    .error ⟨"required", msg⟩
  else
    .ok v

/-- a Python runtime error that is not a processors.Error -/
inductive PyExc where
  | unboundLocal (n : String)
  | keyError (k : String)
  | attributeError (a : String)
deriving DecidableEq, Repr

/-- Widget.get_widget_value (form/core.py lines 100-111): the local variable
value is assigned only under the guard form.request is not None; when the
request is present the submitted value is used if the field occurs in the
request's form data, else the externally supplied default, else the empty
string.  When form.request is None the local is never assigned and the
subsequent read raises UnboundLocalError. -/
def get_widget_value (request : Option (List (String × String)))
    (default : List (String × String)) (name : String) : Except PyExc String :=
  match request with
  | none => .error (.unboundLocal "value")
  | some formdata =>
    match lookupAssoc formdata name with
    | none => .ok ((lookupAssoc default name).getD "")
    | some v => .ok v

/-- an error escaping Widget.to_form: either a Python runtime error or a
typed validation failure from the inbound processor chain. -/
inductive WidgetExc where
  | py (e : PyExc)
  | proc (e : PError)
deriving DecidableEq, Repr

/-- Widget.to_form (form/core.py lines 121-130): same value selection as
get_widget_value (including the unassigned local when the request is None),
then the inbound processor chain is run on the selected value. -/
def to_form (request : Option (List (String × String)))
    (default : List (String × String)) (name : String)
    (processors_in : List (String → Except PError String)) :
    Except WidgetExc String :=
  match request with
  | none => .error (.py (.unboundLocal "value"))
  | some formdata =>
    let value :=
      match lookupAssoc formdata name with
      | none => (lookupAssoc default name).getD ""
      | some v => v
    match process value processors_in with
    | .ok v => .ok v
    | .error e => .error (.proc e)

/-- the value envelope built by Form.process on success:
the dictionary with keys obj and formdata. -/
structure Envelope (O V : Type) where
  obj : O
  formdata : List (String × V)
deriving DecidableEq, Repr

/-- a failure escaping Form.process: either the FormError carrying the
aggregated per-widget error map, or a processors.Error raised by the
form-level outbound chain (which the source does not catch). -/
inductive FormFailure where
  | formError (errors : List (String × PError))
  | procError (e : PError)
deriving DecidableEq, Repr

/-- the widget loop of Form.process (form/core.py lines 256-262): iterate the
widgets, storing each successful widget.get_value result under the widget
name and each processors.Error under the widget name in the error map.
Each widget is modelled by the outcome of its get_value call. -/
def collectWidgets {V : Type} :
    List (String × Except PError V) → List (String × V) × List (String × PError)
  | [] => ([], [])
  | (n, r) :: rest =>
    let (res, errs) := collectWidgets rest
    match r with
    | .ok v => ((n, v) :: res, errs)
    | .error e => (res, (n, e) :: errs)

/-- Form.process (form/core.py lines 247-270): run the widget loop over all
widgets; if the collected error map is non-empty raise FormError with it;
otherwise build the envelope with the passed-in obj and the result
dictionary and run the form-level outbound processor chain on it. -/
def formProcess {O V : Type} (widgets : List (String × Except PError V)) (obj : O)
    (processors_out : List (Envelope O V → Except PError (Envelope O V))) :
    Except FormFailure (Envelope O V) :=
  let (result, errors) := collectWidgets widgets
  if errors.length > 0 then
    .error (.formError errors)
  else
    match process ⟨obj, result⟩ processors_out with
    | .ok v => .ok v
    | .error e => .error (.procError e)

/-! ## Application layer: starflyer/app.py -/

/-- an exception flowing through the dispatch pipeline: a werkzeug
HTTPException carrying a status code, or any other exception identified by a
type id (the isinstance checks of the cascade are modelled as id equality). -/
inductive Exc where
  | http (code : Nat)
  | other (ty : Nat)
deriving DecidableEq, Repr

/-- the payload of a response produced by the pipeline -/
inductive RespKind where
  | normal (id : Nat)
  | internalServerError (msg : String)
  | ofExc (e : Exc)
deriving DecidableEq, Repr

/-- a response together with its outgoing cookies -/
structure Response where
  kind : RespKind
  cookies : List (String × String)
deriving DecidableEq, Repr

/-- a registered error handler class, modelled by the outcome of
instantiating it (handler_class(self, request), which runs the
user-overridable prepare hook and may raise) and by the outcome of calling
the instance with the original exception passed as the exception keyword. -/
structure ErrHandler where
  construct : Except Exc Unit
  call : Exc → Except Exc Response

/-- Application.call_error_handler (app.py lines 341-360): instantiate the
handler class (outside the try block, so a construction failure propagates),
then call the instance; any exception raised by the call is caught and
replaced by the generic InternalServerError response. -/
def call_error_handler (h : ErrHandler) (exception : Exc) : Except Exc Response :=
  match h.construct with
  | .error e => .error e
  | .ok _ =>
    match h.call exception with
    | .ok r => .ok r
    | .error _ =>
      .ok ⟨.internalServerError "we got an exception in the error handler", []⟩

/-- a key of the error_handlers registry: an HTTP status code or an
exception type -/
inductive HandlerKey where
  | code (c : Nat)
  | excType (ty : Nat)
deriving DecidableEq, Repr

/-- dict lookup of a status code among the error_handlers keys
(models e.code in self.error_handlers / self.error_handlers[e.code]). -/
def lookupCode : List (HandlerKey × ErrHandler) → Nat → Option ErrHandler
  | [], _ => none
  | (HandlerKey.code c', h) :: rest, c =>
    if c' = c then some h else lookupCode rest c
  | (HandlerKey.excType _, _) :: rest, c => lookupCode rest c

/-- Application.handle_http_exception (app.py lines 363-376): if a handler is
registered under exactly the exception's code, call it through
call_error_handler with the original exception as context; otherwise return
the exception itself as the response. -/
def handle_http_exception (error_handlers : List (HandlerKey × ErrHandler))
    (c : Nat) : Except Exc Response :=
  match lookupCode error_handlers c with
  | none => .ok ⟨.ofExc (.http c), []⟩
  | some handler => call_error_handler handler (.http c)

/-- the matching test of the non-numeric scan in handle_user_exception:
not isinstance(typecheck, (int, long)) and isinstance(e, typecheck),
with isinstance on exception types modelled as type-id equality. -/
def matchKey : HandlerKey → Exc → Bool
  | .excType t, .other t' => t' == t
  | _, _ => false

/-- Application.handle_user_exception (app.py lines 379-401): HTTP exceptions
are forwarded to handle_http_exception; otherwise the registered non-numeric
keys are scanned in order and the first matching handler is called the same
way; if nothing matches the exception is re-raised. -/
def handle_user_exception (error_handlers : List (HandlerKey × ErrHandler))
    (e : Exc) : Except Exc Response :=
  match e with
  | .http c => handle_http_exception error_handlers c
  | .other _ =>
    match error_handlers.find? (fun kh => matchKey kh.1 e) with
    | some (_, handler) => call_error_handler handler e
    | none => .error e

/-- a session attached to a handler: the null session or a data mapping -/
inductive Session where
  | nullSession
  | data (entries : List (String × String))
deriving DecidableEq, Repr

/-- Modelled from the spec: the sessions module is absent from the source
tree; its is_null_session capability check recognizes exactly the missing
(null) session. -/
def is_null_session : Session → Bool
  | .nullSession => true
  | .data _ => false

/-- Modelled from the spec: the serialized form of the session payload
produced by the external secure-cookie serializer. -/
def serializeSession (entries : List (String × String)) : String :=
  String.intercalate "&" (entries.map (fun p => p.1 ++ "=" ++ p.2))

/-- Modelled from the spec: save_session re-serializes the session and
attaches it to the response's outgoing cookies under the configured session
cookie name (default "s"). -/
def save_session (s : Session) (r : Response) : Response :=
  match s with
  | .nullSession => r
  | .data entries => ⟨r.kind, ("s", serializeSession entries) :: r.cookies⟩

/-- a handler instance as produced by find_handler, modelled by its session
object and the outcome of calling it with the matched path parameters -/
structure HandlerInst where
  session : Session
  callResult : Except Exc Response

/-- the per-application mutable state: the got-first-request flag -/
structure AppState where
  got_first_request : Bool
deriving DecidableEq, Repr

/-- Application.check_first_request (app.py lines 248-252): when the flag is
unset, call the before_first_request hook and only then set the flag; an
exception from the hook propagates before the flag assignment runs, leaving
the flag unset. -/
def check_first_request (st : AppState) (hook : Except Exc Unit) :
    Except Exc AppState :=
  if st.got_first_request then
    .ok st
  else
    match hook with
    | .ok _ => .ok ⟨true⟩
    | .error e => .error e

/-- Application.finalize_response (app.py lines 138-146): the default
implementation returns the response unchanged. -/
def finalize_response (r : Response) : Response := r

/-- the per-request inputs of process_request: the outcome of the
before_first_request hook, the outcome of find_handler (routing plus handler
construction), and the error-handler registry. -/
structure RequestCtx where
  hook : Except Exc Unit
  find_handler : Except Exc HandlerInst
  error_handlers : List (HandlerKey × ErrHandler)

/-- the observable outcome of process_request: the response or propagated
exception, the updated application state, and whether save_session ran. -/
structure ProcessOutcome where
  result : Except Exc Response
  state : AppState
  session_saved : Bool

/-- Application.process_request (app.py lines 278-311): run
check_first_request (outside the try block, so a hook exception propagates);
then try find_handler followed by the handler call, routing any exception
through handle_user_exception (whose re-raise propagates); afterwards, if a
handler instance was bound and its session is not the null session, run
save_session on the response; finally run the finalize_response hook. -/
def process_request (st : AppState) (ctx : RequestCtx) : ProcessOutcome :=
  match check_first_request st ctx.hook with
  | .error e => ⟨.error e, st, false⟩
  | .ok st' =>
    let step : Option HandlerInst × Except Exc Response :=
      match ctx.find_handler with
      | .error e => (none, handle_user_exception ctx.error_handlers e)
      | .ok handler =>
        match handler.callResult with
        | .ok resp => (some handler, .ok resp)
        | .error e => (some handler, handle_user_exception ctx.error_handlers e)
    match step with
    | (_, .error e) => ⟨.error e, st', false⟩
    | (some handler, .ok response) =>
      if is_null_session handler.session then
        ⟨.ok (finalize_response response), st', false⟩
      else
        ⟨.ok (finalize_response (save_session handler.session response)), st', true⟩
    | (none, .ok response) => ⟨.ok (finalize_response response), st', false⟩

/-- a sequence of requests against one application instance, each request
modelled by its before_first_request hook outcome; returns the final state
and how many times the hook was actually invoked (it is invoked exactly when
the flag is unset on entry to check_first_request). -/
def run_requests (st : AppState) :
    List (Except Exc Unit) → AppState × Nat
  | [] => (st, 0)
  | h :: rest =>
    let invoked := if st.got_first_request then 0 else 1
    let st' :=
      match check_first_request st h with
      | .ok s => s
      | .error _ => st
    let (stf, n) := run_requests st' rest
    (stf, invoked + n)

/-! ## Handler layer: starflyer/handler.py -/

/-- the request data consulted by Handler.handle: the HTTP method, the
combined query/form values, and the cookies -/
structure HRequest where
  method : String
  values : List (String × String)
  cookies : List (String × String)

/-- the shape of a handler instance: which attribute names exist on it
(hasattr), and whether a logger was supplied (the constructor default is
log=None, on which self.log.debug raises AttributeError). -/
structure HandlerShape where
  attrs : List String
  has_log : Bool

/-- what Handler.handle dispatched to -/
inductive HandleResult where
  | called (method : String) (args : List (String × String))
  | methodNotAllowed
deriving DecidableEq, Repr

/-- the observable outcome of Handler.handle: the dispatch result or a
Python runtime error, and whether decode_messages ran on the cookies. -/
structure HandleOutcome where
  result : Except PyExc HandleResult
  decoded_flash : Bool
deriving Repr

/-- the Python str.lower() applied to a dispatch name, char by char. -/
def lower (s : String) : String :=
  ⟨s.data.map Char.toLower⟩

/-- Handler.handle (handler.py lines 53-65): the dispatch name is the
request's HTTP method, overridden by the method entry of the combined
query/form values when present, lowercased.  If the handler has an attribute
of that name: decode the flash-message cookies into messages_in, emit the
debug log line (AttributeError when no logger was supplied, KeyError when
the path arguments carry no handler entry), drop the handler entry from the
arguments and call the named method with the rest.  Otherwise return a
MethodNotAllowed response without decoding the cookies. -/
def handle (h : HandlerShape) (req : HRequest) (m : List (String × String)) :
    HandleOutcome :=
  let method := lower ((lookupAssoc req.values "method").getD req.method)
  if h.attrs.contains method then
    if h.has_log then
      match lookupAssoc m "handler" with
      | some _ => ⟨.ok (.called method (eraseKey m "handler")), true⟩
      | none => ⟨.error (.keyError "handler"), true⟩
    else
      ⟨.error (.attributeError "debug"), true⟩
  else
    ⟨.ok .methodNotAllowed, false⟩

/-! ## Helper lemmas -/

lemma collectWidgets_eq {V : Type} (ws : List (String × Except PError V)) :
    collectWidgets ws =
      (ws.filterMap (fun p =>
         match p.2 with
         | Except.ok v => some (p.1, v)
         | Except.error _ => none),
       ws.filterMap (fun p =>
         match p.2 with
         | Except.error e => some (p.1, e)
         | Except.ok _ => none)) := by
  induction ws with
  | nil => rfl
  | cons hd tl ih =>
    obtain ⟨n, r⟩ := hd
    cases r <;> simp [collectWidgets, ih]

lemma formProcess_eq {O V : Type} (widgets : List (String × Except PError V))
    (obj : O) (chain : List (Envelope O V → Except PError (Envelope O V))) :
    formProcess widgets obj chain =
      (if (collectWidgets widgets).2.length > 0 then
        Except.error (FormFailure.formError (collectWidgets widgets).2)
      else
        match process ⟨obj, (collectWidgets widgets).1⟩ chain with
        | Except.ok v => Except.ok v
        | Except.error e => Except.error (FormFailure.procError e)) := by
  rcases hq : collectWidgets widgets with ⟨res, errs⟩
  simp [formProcess, hq]

lemma run_requests_flag_set (hooks : List (Except Exc Unit)) :
    run_requests ⟨true⟩ hooks = (⟨true⟩, 0) := by
  induction hooks with
  | nil => rfl
  | cons h t ih => simp [run_requests, check_first_request, ih]

/-! ## Claims about the form layer -/

/-- Claim C1: Form.process attempts the extract-typed-value operation of
every constituent widget even when some widgets fail: every per-widget
validation error is collected into the aggregate error map keyed by widget
name, every successful widget still contributes its converted value, and
FormError carrying the full aggregate is raised if and only if the aggregate
is non-empty after all widgets were evaluated. -/
theorem form_process_error_isolation {O V : Type}
    (widgets : List (String × Except PError V)) (obj : O)
    (chain : List (Envelope O V → Except PError (Envelope O V))) :
    (∀ n e, (n, Except.error e) ∈ widgets → (n, e) ∈ (collectWidgets widgets).2) ∧
    (∀ n v, (n, Except.ok v) ∈ widgets → (n, v) ∈ (collectWidgets widgets).1) ∧
    ((collectWidgets widgets).2 ≠ [] ↔
      formProcess widgets obj chain =
        Except.error (FormFailure.formError (collectWidgets widgets).2)) := by
  refine ⟨?_, ?_, ?_⟩
  · intro n e hmem
    have h2 := congrArg Prod.snd (collectWidgets_eq widgets)
    rw [h2]
    exact List.mem_filterMap.mpr ⟨(n, Except.error e), hmem, rfl⟩
  · intro n v hmem
    have h1 := congrArg Prod.fst (collectWidgets_eq widgets)
    rw [h1]
    exact List.mem_filterMap.mpr ⟨(n, Except.ok v), hmem, rfl⟩
  · rw [formProcess_eq]
    by_cases hE : (collectWidgets widgets).2 = []
    · rw [hE]
      simp
      cases hp : process ⟨obj, (collectWidgets widgets).1⟩ chain <;> simp [hp]
    · have hlen : 0 < (collectWidgets widgets).2.length := List.length_pos.mpr hE
      simp [hlen, hE]

/-- witness for form_process_error_isolation: a two-widget form where the
first widget fails required-ness and the second succeeds; the error map
contains the first widget's error, the second widget was still evaluated,
and FormError carries exactly the one-entry map. -/
theorem form_process_error_isolation_witness :
    ("a", (⟨"required", "m"⟩ : PError)) ∈
      (collectWidgets [("a", Except.error ⟨"required", "m"⟩),
                       ("b", Except.ok (1 : Nat))]).2 ∧
    ("b", (1 : Nat)) ∈
      (collectWidgets [("a", Except.error ⟨"required", "m"⟩),
                       ("b", Except.ok (1 : Nat))]).1 ∧
    formProcess [("a", Except.error ⟨"required", "m"⟩),
                 ("b", Except.ok (1 : Nat))] (0 : Nat) [] =
      Except.error (FormFailure.formError [("a", ⟨"required", "m"⟩)]) := by
  refine ⟨?_, ?_, ?_⟩
  · exact (form_process_error_isolation
      [("a", Except.error ⟨"required", "m"⟩), ("b", Except.ok (1 : Nat))]
      (0 : Nat) []).1 "a" ⟨"required", "m"⟩ (by simp)
  · exact (form_process_error_isolation
      [("a", Except.error ⟨"required", "m"⟩), ("b", Except.ok (1 : Nat))]
      (0 : Nat) []).2.1 "b" 1 (by simp)
  · exact (form_process_error_isolation
      [("a", Except.error ⟨"required", "m"⟩), ("b", Except.ok (1 : Nat))]
      (0 : Nat) []).2.2.mp (by simp [collectWidgets])

/-- Claim C5 counterexample: the claim quantifies over every widget marked
required, but the base Widget.from_form raises the required error only when
the field is absent.  A required base widget whose field is submitted as the
empty string raises nothing: the call returns normally (with the empty
outbound chain it returns the value the source feeds to the processors). -/
theorem widget_required_empty_counterexample :
    widgetFromForm true "field" "This field is required" [("field", "")] [] =
      Except.ok PyVal.formObj := by
  rfl

/-- Claim C5 (amended): for the Input family of widgets (text, password,
email, url, file-less text inputs, textarea), from_form raises a validation
error of kind required with the widget's required message both when the
field is absent from the submitted data and when it is submitted as an empty
string, and the two cases produce the same error kind; the base
Widget.from_form raises that error only when the field is absent. -/
theorem input_required_error (n msg : String) (formdata : List (String × String))
    (chain : List (PyVal → Except PError PyVal)) :
    (lookupAssoc formdata n = none →
      inputFromForm true n msg formdata = Except.error ⟨"required", msg⟩) ∧
    (lookupAssoc formdata n = some "" →
      inputFromForm true n msg formdata = Except.error ⟨"required", msg⟩) ∧
    (lookupAssoc formdata n = none →
      widgetFromForm true n msg formdata chain = Except.error ⟨"required", msg⟩) := by
  refine ⟨?_, ?_, ?_⟩ <;> intro hq <;>
    simp [inputFromForm, widgetFromForm, hq, stripIsEmpty]

/-- witness for input_required_error: an absent field and an empty-string
field both produce the required error on an Input widget, and an absent
field produces it on a base widget. -/
theorem input_required_error_witness :
    inputFromForm true "f" "m" [] = Except.error ⟨"required", "m"⟩ ∧
    inputFromForm true "f" "m" [("f", "")] = Except.error ⟨"required", "m"⟩ ∧
    widgetFromForm true "f" "m" [] [] = Except.error ⟨"required", "m"⟩ :=
  ⟨(input_required_error "f" "m" [] []).1 rfl,
   (input_required_error "f" "m" [("f", "")] []).2.1 rfl,
   (input_required_error "f" "m" [] []).2.2 rfl⟩

/-- Claim C6: when every widget succeeds, Form.process builds the envelope
holding the passed-in obj itself and the per-widget converted values keyed
by widget name, runs it through the form-level outbound processor chain and
returns that chain's result; with the empty form-level chain the returned
value is exactly the original object plus the converted field dictionary. -/
theorem form_process_success_envelope {O V : Type}
    (widgets : List (String × Except PError V)) (obj : O)
    (chain : List (Envelope O V → Except PError (Envelope O V)))
    (hE : (collectWidgets widgets).2 = []) :
    formProcess widgets obj chain =
      (match process ⟨obj, (collectWidgets widgets).1⟩ chain with
        | Except.ok v => Except.ok v
        | Except.error e => Except.error (FormFailure.procError e)) ∧
    formProcess widgets obj [] = Except.ok ⟨obj, (collectWidgets widgets).1⟩ := by
  constructor
  · rw [formProcess_eq, hE]
    simp
  · rw [formProcess_eq, hE]
    simp [process]

/-- witness for form_process_success_envelope: a two-widget all-valid form
processed with the empty form-level chain returns the original object and
the converted field dictionary. -/
theorem form_process_success_envelope_witness :
    formProcess [("a", Except.ok (1 : Nat)), ("b", Except.ok 2)] (5 : Nat) [] =
      Except.ok ⟨5, [("a", 1), ("b", 2)]⟩ :=
  (form_process_success_envelope
    [("a", Except.ok (1 : Nat)), ("b", Except.ok 2)] (5 : Nat) [] rfl).2

/-- Claim C7: the display value of a widget follows the precedence
previously-submitted request value, else supplied default, else empty
string, whenever a request object is present; but when the form has no
request object at all, both get_widget_value and to_form raise
UnboundLocalError on the never-assigned local instead of falling back to
the default, because the assignment is guarded by the request check. -/
theorem widget_value_precedence (formdata default : List (String × String))
    (n : String) (processors_in : List (String → Except PError String)) :
    get_widget_value (some formdata) default n =
      Except.ok ((lookupAssoc formdata n).getD ((lookupAssoc default n).getD "")) ∧
    get_widget_value none default n = Except.error (PyExc.unboundLocal "value") ∧
    to_form none default n processors_in =
      Except.error (WidgetExc.py (PyExc.unboundLocal "value")) ∧
    to_form (some formdata) default n [] =
      Except.ok ((lookupAssoc formdata n).getD ((lookupAssoc default n).getD "")) := by
  refine ⟨?_, rfl, rfl, ?_⟩
  · cases hq : lookupAssoc formdata n <;> simp [get_widget_value, hq]
  · cases hq : lookupAssoc formdata n <;> simp [to_form, hq, process]

/-! ## Claims about the application layer -/

/-- Claim C2: for every registered error handler whose instantiation
succeeds, any exception raised while calling the handler is caught inside
call_error_handler and never propagates: the result is unconditionally the
generic internal-server-error response, and in general a successfully
constructed handler always yields an ok response, never re-entering the
exception-classification cascade. -/
theorem error_handler_exception_contained (h : ErrHandler) (exception ex : Exc)
    (hc : h.construct = Except.ok ()) :
    (h.call exception = Except.error ex →
      call_error_handler h exception =
        Except.ok ⟨RespKind.internalServerError
          "we got an exception in the error handler", []⟩) ∧
    ∃ r, call_error_handler h exception = Except.ok r := by
  constructor
  · intro hcall
    simp [call_error_handler, hc, hcall]
  · cases hcall : h.call exception with
    | ok r => exact ⟨r, by simp [call_error_handler, hc, hcall]⟩
    | error e2 =>
      exact ⟨⟨RespKind.internalServerError
        "we got an exception in the error handler", []⟩,
        by simp [call_error_handler, hc, hcall]⟩

/-- witness for error_handler_exception_contained: a handler that throws on
every call produces the generic internal-server-error response. -/
theorem error_handler_exception_contained_witness :
    call_error_handler ⟨Except.ok (), fun _ => Except.error (Exc.other 7)⟩
        (Exc.other 1) =
      Except.ok ⟨RespKind.internalServerError
        "we got an exception in the error handler", []⟩ :=
  (error_handler_exception_contained
    ⟨Except.ok (), fun _ => Except.error (Exc.other 7)⟩
    (Exc.other 1) (Exc.other 7) rfl).1 rfl

/-- Claim C3: for an HTTP-level exception carrying a status code,
handle_http_exception invokes the handler registered under exactly that code
with the original exception passed as context and returns its result, and
returns the exception itself as the response when no handler is registered
under the code; in particular a routing failure (a 404 raised by
find_handler) reaches a registered 404 handler with the routing exception as
context, and without a 404 registration the not-found exception passes
through process_request unmodified. -/
theorem http_exception_handler_dispatch
    (ehs : List (HandlerKey × ErrHandler)) (c : Nat) :
    (∀ h, lookupCode ehs c = some h →
      handle_http_exception ehs c = call_error_handler h (Exc.http c)) ∧
    (lookupCode ehs c = none →
      handle_http_exception ehs c =
        Except.ok ⟨RespKind.ofExc (Exc.http c), []⟩) ∧
    (∀ (st : AppState) (ctx : RequestCtx) (h : ErrHandler),
      st.got_first_request = true →
      ctx.find_handler = Except.error (Exc.http 404) →
      ctx.error_handlers = ehs →
      lookupCode ehs 404 = some h →
      (process_request st ctx).result = call_error_handler h (Exc.http 404)) ∧
    (∀ (st : AppState) (ctx : RequestCtx),
      st.got_first_request = true →
      ctx.find_handler = Except.error (Exc.http 404) →
      ctx.error_handlers = ehs →
      lookupCode ehs 404 = none →
      (process_request st ctx).result =
        Except.ok ⟨RespKind.ofExc (Exc.http 404), []⟩) := by
  refine ⟨?_, ?_, ?_, ?_⟩
  · intro h hl
    simp [handle_http_exception, hl]
  · intro hl
    simp [handle_http_exception, hl]
  · intro st ctx h hst hf he hl
    cases hcall : call_error_handler h (Exc.http 404) with
    | ok r =>
      simp [process_request, check_first_request, hst, hf, he,
            handle_user_exception, handle_http_exception, hl, hcall,
            finalize_response]
    | error e2 =>
      simp [process_request, check_first_request, hst, hf, he,
            handle_user_exception, handle_http_exception, hl, hcall]
  · intro st ctx hst hf he hl
    simp [process_request, check_first_request, hst, hf, he,
          handle_user_exception, handle_http_exception, hl, finalize_response]

/-- witness for http_exception_handler_dispatch: with a handler registered
under 404 a routing failure produces that handler's response through
process_request, and with an empty registry the not-found exception passes
through as the response. -/
theorem http_exception_handler_dispatch_witness :
    (process_request ⟨true⟩
        ⟨Except.ok (), Except.error (Exc.http 404),
         [(HandlerKey.code 404,
           ⟨Except.ok (), fun _ => Except.ok ⟨RespKind.normal 1, []⟩⟩)]⟩).result =
      Except.ok ⟨RespKind.normal 1, []⟩ ∧
    (process_request ⟨true⟩
        ⟨Except.ok (), Except.error (Exc.http 404), []⟩).result =
      Except.ok ⟨RespKind.ofExc (Exc.http 404), []⟩ := by
  constructor
  · have := (http_exception_handler_dispatch
      [(HandlerKey.code 404,
        ⟨Except.ok (), fun _ => Except.ok ⟨RespKind.normal 1, []⟩⟩)] 404).2.2.1
      ⟨true⟩
      ⟨Except.ok (), Except.error (Exc.http 404),
       [(HandlerKey.code 404,
         ⟨Except.ok (), fun _ => Except.ok ⟨RespKind.normal 1, []⟩⟩)]⟩
      ⟨Except.ok (), fun _ => Except.ok ⟨RespKind.normal 1, []⟩⟩
      rfl rfl rfl rfl
    simpa [call_error_handler] using this
  · exact (http_exception_handler_dispatch [] 404).2.2.2
      ⟨true⟩ ⟨Except.ok (), Except.error (Exc.http 404), []⟩ rfl rfl rfl rfl

/-- Claim C4 counterexample: the claim states the first-request hook is
never retried once it has thrown, but the flag assignment runs only after
the hook returns, so a throwing hook leaves the flag unset and a second
request invokes the hook again: two requests whose hook throws both invoke
it, and the flag is still unset afterwards. -/
theorem first_request_retry_counterexample :
    run_requests ⟨false⟩
        [Except.error (Exc.other 0), Except.error (Exc.other 0)] =
      (⟨false⟩, 2) := by
  decide

/-- Claim C4 (amended): the before_first_request hook is invoked on every
request while the got-first-request flag is unset and on no request
afterwards; the flag is set exactly when an invocation returns without
throwing, so on a successful first invocation the hook fires exactly once
across any number of subsequent requests, while a throwing invocation
propagates the exception, leaves the flag unset and is retried on the next
request. -/
theorem first_request_hook_gating (e : Exc) (hooks : List (Except Exc Unit)) :
    run_requests ⟨true⟩ hooks = (⟨true⟩, 0) ∧
    run_requests ⟨false⟩ (Except.ok () :: hooks) = (⟨true⟩, 1) ∧
    (run_requests ⟨false⟩ (Except.error e :: hooks)).2 =
      1 + (run_requests ⟨false⟩ hooks).2 ∧
    check_first_request ⟨false⟩ (Except.error e) = Except.error e := by
  refine ⟨run_requests_flag_set hooks, ?_, ?_, rfl⟩
  · simp [run_requests, check_first_request, run_requests_flag_set]
  · rcases hq : run_requests ⟨false⟩ hooks with ⟨stf, k⟩
    simp [run_requests, check_first_request, hq]

/-- Claim C8: session persistence happens exactly when a handler instance
was bound (routing and construction succeeded), its session is not the null
session, and a response was produced; in that case the serialized session is
attached to the response's outgoing cookies, and in every other case
save_session never runs and the response passes through with its cookies
untouched. -/
theorem session_persistence_gating (st : AppState) (ctx : RequestCtx) :
    ((process_request st ctx).session_saved = true ↔
      ∃ st0 handler response,
        check_first_request st ctx.hook = Except.ok st0 ∧
        ctx.find_handler = Except.ok handler ∧
        is_null_session handler.session = false ∧
        (match handler.callResult with
          | Except.ok r => Except.ok r
          | Except.error e => handle_user_exception ctx.error_handlers e) =
          Except.ok response) ∧
    (∀ (st0 : AppState) (handler : HandlerInst)
        (entries : List (String × String)) (response : Response),
      check_first_request st ctx.hook = Except.ok st0 →
      ctx.find_handler = Except.ok handler →
      handler.session = Session.data entries →
      handler.callResult = Except.ok response →
      (process_request st ctx).result =
        Except.ok ⟨response.kind,
          ("s", serializeSession entries) :: response.cookies⟩) ∧
    (∀ (st0 : AppState) (e : Exc) (response : Response),
      check_first_request st ctx.hook = Except.ok st0 →
      ctx.find_handler = Except.error e →
      handle_user_exception ctx.error_handlers e = Except.ok response →
      (process_request st ctx).result = Except.ok response ∧
      (process_request st ctx).session_saved = false) ∧
    (∀ (st0 : AppState) (handler : HandlerInst) (response : Response),
      check_first_request st ctx.hook = Except.ok st0 →
      ctx.find_handler = Except.ok handler →
      handler.session = Session.nullSession →
      handler.callResult = Except.ok response →
      (process_request st ctx).result = Except.ok response ∧
      (process_request st ctx).session_saved = false) := by
  refine ⟨?_, ?_, ?_, ?_⟩
  · cases hchk : check_first_request st ctx.hook with
    | error e => simp [process_request, hchk]
    | ok st0 =>
      cases hf : ctx.find_handler with
      | error e =>
        cases hue : handle_user_exception ctx.error_handlers e with
        | error e2 => simp [process_request, hchk, hf, hue]
        | ok r => simp [process_request, hchk, hf, hue]
      | ok handler =>
        cases hcall : handler.callResult with
        | error e =>
          cases hue : handle_user_exception ctx.error_handlers e with
          | error e2 => simp [process_request, hchk, hf, hcall, hue]
          | ok r =>
            cases hnull : is_null_session handler.session with
            | true => simp [process_request, hchk, hf, hcall, hue, hnull]
            | false => simp [process_request, hchk, hf, hcall, hue, hnull]
        | ok resp =>
          cases hnull : is_null_session handler.session with
          | true => simp [process_request, hchk, hf, hcall, hnull]
          | false => simp [process_request, hchk, hf, hcall, hnull]
  · intro st0 handler entries response hchk hf hs hcall
    simp [process_request, hchk, hf, hcall, is_null_session, hs,
          save_session, finalize_response]
  · intro st0 e response hchk hf hue
    constructor <;> simp [process_request, hchk, hf, hue, finalize_response]
  · intro st0 handler response hchk hf hs hcall
    constructor <;>
      simp [process_request, hchk, hf, hcall, hs, is_null_session,
            finalize_response]

/-- witness for session_persistence_gating: a handler with a non-empty
session gets its serialized session written to the response cookies, while
a handler with the null session leaves save_session uncalled. -/
theorem session_persistence_gating_witness :
    (process_request ⟨true⟩
        ⟨Except.ok (),
         Except.ok ⟨Session.data [("k", "v")],
           Except.ok ⟨RespKind.normal 3, []⟩⟩, []⟩).result =
      Except.ok ⟨RespKind.normal 3, [("s", "k=v")]⟩ ∧
    (process_request ⟨true⟩
        ⟨Except.ok (),
         Except.ok ⟨Session.nullSession,
           Except.ok ⟨RespKind.normal 3, []⟩⟩, []⟩).session_saved = false := by
  constructor
  · have := (session_persistence_gating ⟨true⟩
      ⟨Except.ok (),
       Except.ok ⟨Session.data [("k", "v")],
         Except.ok ⟨RespKind.normal 3, []⟩⟩, []⟩).2.1
      ⟨true⟩ ⟨Session.data [("k", "v")], Except.ok ⟨RespKind.normal 3, []⟩⟩
      [("k", "v")] ⟨RespKind.normal 3, []⟩ rfl rfl rfl rfl
    simpa [serializeSession] using this
  · exact ((session_persistence_gating ⟨true⟩
      ⟨Except.ok (),
       Except.ok ⟨Session.nullSession,
         Except.ok ⟨RespKind.normal 3, []⟩⟩, []⟩).2.2.2
      ⟨true⟩ ⟨Session.nullSession, Except.ok ⟨RespKind.normal 3, []⟩⟩
      ⟨RespKind.normal 3, []⟩ rfl rfl rfl rfl).2

/-! ## Claims about the handler layer -/

/-- Claim C9: Handler.handle dispatches to the handler method named by the
lowercased HTTP verb, except that a method entry in the request's combined
query/form values overrides it: its lowercased value names the method
dispatched to regardless of the actual HTTP method; shown here for a
handler carrying a logger and path arguments carrying the handler entry the
source deletes before the call. -/
theorem handler_method_dispatch (h : HandlerShape) (req : HRequest)
    (m : List (String × String)) (hv : String)
    (hlog : h.has_log = true) (hm : lookupAssoc m "handler" = some hv)
    (hattr : lower ((lookupAssoc req.values "method").getD req.method)
      ∈ h.attrs) :
    handle h req m =
      ⟨Except.ok (HandleResult.called
        (lower ((lookupAssoc req.values "method").getD req.method))
        (eraseKey m "handler")), true⟩ := by
  simp [handle, hlog, hm, hattr]

/-- witness for handler_method_dispatch: an HTTP GET request with the
override parameter method=POST dispatches to the post method. -/
theorem handler_method_dispatch_witness :
    handle ⟨["post"], true⟩ ⟨"GET", [("method", "POST")], []⟩
        [("handler", "x"), ("id", "1")] =
      ⟨Except.ok (HandleResult.called "post" [("id", "1")]), true⟩ := by
  have := handler_method_dispatch ⟨["post"], true⟩
    ⟨"GET", [("method", "POST")], []⟩ [("handler", "x"), ("id", "1")] "x"
    rfl rfl (by decide)
  simpa [lookupAssoc, eraseKey, lower] using this

/-- Claim C10: when the effective dispatch name (the lowercased HTTP verb,
or the lowercased method override when present) names no attribute of the
handler, Handler.handle returns a MethodNotAllowed response without calling
any verb method and without decoding the flash-message cookies. -/
theorem handler_method_not_allowed (h : HandlerShape) (req : HRequest)
    (m : List (String × String))
    (hattr : lower ((lookupAssoc req.values "method").getD req.method)
      ∉ h.attrs) :
    handle h req m = ⟨Except.ok HandleResult.methodNotAllowed, false⟩ := by
  simp [handle, hattr]

/-- witness for handler_method_not_allowed: a DELETE request against a
handler exposing only get yields MethodNotAllowed with no cookie decoding. -/
theorem handler_method_not_allowed_witness :
    handle ⟨["get"], true⟩ ⟨"DELETE", [], []⟩ [("handler", "x")] =
      ⟨Except.ok HandleResult.methodNotAllowed, false⟩ :=
  handler_method_not_allowed ⟨["get"], true⟩ ⟨"DELETE", [], []⟩
    [("handler", "x")] (by decide)

end Starflyer
